import Mathlib

/-!
Shallow embedding of the crossbow build-orchestration core:
toolchain resolution (`crates/creator-tools/src/deps/android_ndk.rs`),
manifest generation (`crates/creator-build/src/commands/gen_android_manifest/mod.rs`),
update version comparison (`crossbundle/cli/src/commands/update/check.rs`) and
intent-filter metadata conversion (`crates/cargo-creator/src/builder/android/metadata.rs`).

Filesystem state is modelled as an existence predicate `Path → Bool` (plus a
contents map for the manifest writer), the environment as `String → Option String`,
and the compile-time `cfg!(target_os = ...)` checks as an `OsType` parameter.
`u32` arithmetic is modelled on `Nat` with the wrap at `2 ^ 32` made explicit
where overflow matters.
-/

namespace Crossbow

/-- Paths are modelled as their component lists; `PathBuf::join` appends one
component. -/
abbrev Path := List String

/-- Rust `PathBuf::join` with a single-component suffix. -/
def Path.join (p : Path) (s : String) : Path := p ++ [s]

/-- Rust `PathBuf::set_file_name`: replace the last component. -/
def Path.set_file_name (p : Path) (s : String) : Path := p.dropLast ++ [s]

/-- Rust `PathBuf::from` applied to an environment-variable string: an opaque
one-component path. -/
def Path.fromString (s : String) : Path := [s]

/-- Whether `needle` occurs as a contiguous run inside `l`. -/
def listInfixOf (needle : List Char) : List Char → Bool
  | [] => needle.isEmpty
  | c :: t => needle.isPrefixOf (c :: t) || listInfixOf needle t

/-- Rust `str::contains` (substring test), via infix lists of characters. -/
def strContains (h s : String) : Bool := listInfixOf s.data h.data

/-- The compile-time platform of the binary: the `cfg!(target_os = "...")`
alternatives tested in `toolchain_dir`, plus every other platform. -/
inductive OsType
  | linux
  | macos
  | windows
  | other
deriving DecidableEq

/-- `AndroidError` variants of `creator-tools` used by `android_ndk.rs`. -/
inductive AndroidError
  | AndroidNdkNotFound
  | UnsupportedHost (host : String)
  | UnsupportedTarget
  | PlatformNotFound (minApi : Nat)
deriving DecidableEq

/-- `creator-tools` `Error` variants reachable from the embedded functions:
`PathNotFound`, the `From<AndroidError>` injection, and I/O failure. -/
inductive Error
  | PathNotFound (path : Path)
  | android (err : AndroidError)
  | Io
deriving DecidableEq

deriving instance DecidableEq for Except

/-- Modelled from the spec: the `TargetDescriptor`'s "architecture/triple
identifier". The `AndroidTarget` enum and its triple accessors live outside the
analyzed sources, so the target is modelled by the two triple strings
`android_ndk.rs` consumes. -/
structure AndroidTarget where
  ndk_llvm_triple : String
  ndk_triple : String
deriving DecidableEq

/-- `AndroidNdk` of `android_ndk.rs`: the resolved installation root. -/
structure AndroidNdk where
  ndk_path : Path
deriving DecidableEq

/-- First loop of `AndroidNdk::sysroot_platform_lib_dir`
(`while tmp_platform > 1 { if exists { return }; tmp_platform += 1 }`), with
`tmp_platform : u32`.  The increment only ascends, so with wrapping `u32`
arithmetic the loop runs until `tmp_platform` wraps past `2 ^ 32 - 1` to `0`
(where `0 > 1` fails).  The loop is embedded by structural recursion on the
number `2 ^ 32 - tmp` of increments the wrapped counter can still perform
before exiting, which makes the wrap explicit. -/
def firstScanAux (ex : Nat → Bool) : Nat → Nat → Option Nat
  | _, 0 => none
  | tmp, fuel + 1 =>
    if 1 < tmp then
      if ex tmp then some tmp
      else firstScanAux ex (tmp + 1) fuel
    else none

/-- First scan entered at `tmp = min_sdk_version`; see `firstScanAux`. -/
def firstScan (ex : Nat → Bool) (tmp : Nat) : Option Nat :=
  firstScanAux ex tmp (2 ^ 32 - tmp)

/-- Second loop of `AndroidNdk::sysroot_platform_lib_dir`
(`while tmp_platform < 100 { if exists { return }; tmp_platform += 1 }`),
again by structural recursion on the remaining iteration count. -/
def secondScanAux (ex : Nat → Bool) : Nat → Nat → Option Nat
  | _, 0 => none
  | tmp, fuel + 1 =>
    if tmp < 100 then
      if ex tmp then some tmp
      else secondScanAux ex (tmp + 1) fuel
    else none

/-- Second scan entered at `tmp = min_sdk_version`; see `secondScanAux`. -/
def secondScan (ex : Nat → Bool) (tmp : Nat) : Option Nat :=
  secondScanAux ex tmp (100 - tmp)

/-- `AndroidNdk::from_env`: the environment-variable chain
`ANDROID_NDK_ROOT / ANDROID_NDK_PATH / ANDROID_NDK_HOME / NDK_HOME`, then the
`ndk-bundle` default under a supplied SDK path, else `AndroidNdkNotFound`. -/
def AndroidNdk.from_env (env : String → Option String) (fsx : Path → Bool)
    (sdk_path : Option Path) : Except Error AndroidNdk :=
  let ndk_var :=
    ((env "ANDROID_NDK_ROOT").orElse fun _ =>
      ((env "ANDROID_NDK_PATH").orElse fun _ =>
        ((env "ANDROID_NDK_HOME").orElse fun _ =>
          env "NDK_HOME")))
  -- Default ndk installation path
  if ndk_var.isNone && sdk_path.isSome && fsx ((sdk_path.getD []).join "ndk-bundle") then
    Except.ok ⟨(sdk_path.getD []).join "ndk-bundle"⟩
  else
    match ndk_var with
    | some s => Except.ok ⟨Path.fromString s⟩
    | none => Except.error (Error.android AndroidError.AndroidNdkNotFound)

/-- The host-architecture-tag computation at the head of
`AndroidNdk::toolchain_dir`: the `HOST` environment variable is consulted for
the substrings `linux` / `macos` / `windows`, then the compile-time
`cfg!(target_os)` alternatives, else `UnsupportedHost` (host string present) or
`UnsupportedTarget` (no host string). -/
def resolve_arch (env : String → Option String) (cfgOs : OsType) : Except Error String :=
  let host_os := env "HOST"
  let host_contains := fun s => (host_os.map fun h => strContains h s).getD false
  if host_contains "linux" then Except.ok "linux"
  else if host_contains "macos" then Except.ok "darwin"
  else if host_contains "windows" then Except.ok "windows"
  else if cfgOs = OsType.linux then Except.ok "linux"
  else if cfgOs = OsType.macos then Except.ok "darwin"
  else if cfgOs = OsType.windows then Except.ok "windows"
  else
    match host_os with
    | some h => Except.error (Error.android (AndroidError.UnsupportedHost h))
    | none => Except.error (Error.android AndroidError.UnsupportedTarget)

/-- `AndroidNdk::toolchain_dir`: resolve the architecture tag, probe
`<root>/toolchains/llvm/prebuilt/<tag>-x86_64`, fall back (via
`set_file_name`) to the bare `<tag>`, else `PathNotFound`. -/
def AndroidNdk.toolchain_dir (env : String → Option String) (fsx : Path → Bool)
    (cfgOs : OsType) (ndk : AndroidNdk) : Except Error Path :=
  match resolve_arch env cfgOs with
  | Except.error e => Except.error e
  | Except.ok arch =>
    let toolchain_dir :=
      ((((ndk.ndk_path.join "toolchains").join "llvm").join "prebuilt").join
        (arch ++ "-x86_64"))
    let toolchain_dir :=
      if !fsx toolchain_dir then toolchain_dir.set_file_name arch else toolchain_dir
    if !fsx toolchain_dir then Except.error (Error.PathNotFound toolchain_dir)
    else Except.ok toolchain_dir

/-- `AndroidNdk::clang`: build `<triple><platform>-clang` (and the `++`
sibling) under `<toolchain>/bin`, with the Windows-only `.cmd` suffix,
failing with `PathNotFound` at the first missing file. -/
def AndroidNdk.clang (env : String → Option String) (fsx : Path → Bool) (cfgOs : OsType)
    (ndk : AndroidNdk) (target : AndroidTarget) (platform : Nat) :
    Except Error (Path × Path) :=
  let ext := if cfgOs = OsType.windows then ".cmd" else ""
  let bin_name := target.ndk_llvm_triple ++ toString platform ++ "-clang"
  match ndk.toolchain_dir env fsx cfgOs with
  | Except.error e => Except.error e
  | Except.ok tdir =>
    let bin_path := tdir.join "bin"
    let clang := bin_path.join (bin_name ++ ext)
    if !fsx clang then Except.error (Error.PathNotFound clang)
    else
      let clang_pp := bin_path.join (bin_name ++ "++" ++ ext)
      if !fsx clang_pp then Except.error (Error.PathNotFound clang_pp)
      else Except.ok (clang, clang_pp)

/-- `AndroidNdk::sysroot_lib_dir`:
`<toolchain>/sysroot/usr/lib/<ndk-triple>`, else `PathNotFound`. -/
def AndroidNdk.sysroot_lib_dir (env : String → Option String) (fsx : Path → Bool)
    (cfgOs : OsType) (ndk : AndroidNdk) (build_target : AndroidTarget) :
    Except Error Path :=
  match ndk.toolchain_dir env fsx cfgOs with
  | Except.error e => Except.error e
  | Except.ok tdir =>
    let sysroot_lib_dir :=
      (((tdir.join "sysroot").join "usr").join "lib").join build_target.ndk_triple
    if !fsx sysroot_lib_dir then Except.error (Error.PathNotFound sysroot_lib_dir)
    else Except.ok sysroot_lib_dir

/-- `AndroidNdk::sysroot_platform_lib_dir`: the two ascending scans for an
existing numeric API-level subdirectory of the sysroot library directory,
else `PlatformNotFound(min_sdk_version)`. -/
def AndroidNdk.sysroot_platform_lib_dir (env : String → Option String)
    (fsx : Path → Bool) (cfgOs : OsType) (ndk : AndroidNdk)
    (build_target : AndroidTarget) (min_sdk_version : Nat) : Except Error Path :=
  match ndk.sysroot_lib_dir env fsx cfgOs build_target with
  | Except.error e => Except.error e
  | Except.ok sysroot_lib_dir =>
    let ex := fun n : Nat => fsx (sysroot_lib_dir.join (toString n))
    -- Look for a platform <= min_sdk_version
    match firstScan ex min_sdk_version with
    | some n => Except.ok (sysroot_lib_dir.join (toString n))
    | none =>
      -- Look for the minimum API level supported by the NDK
      match secondScan ex min_sdk_version with
      | some n => Except.ok (sysroot_lib_dir.join (toString n))
      | none =>
        Except.error (Error.android (AndroidError.PlatformNotFound min_sdk_version))

/-- Modelled from the spec: the manifest value handed to `GenAndroidManifest`
is "supplied wholesale by the caller" and only its `Display` rendering (not in
the analyzed sources) is consumed, so it is modelled by its rendered text. -/
structure AndroidManifest where
  rendered : String
deriving DecidableEq

/-- Filesystem state seen by the manifest writer: per-path contents, and which
paths `File::create` + `writeln!` can write (a failing path yields the I/O
error both `?` operators propagate). -/
structure FSState where
  files : Path → Option String
  writable : Path → Bool

/-- `GenAndroidManifest` of `creator-build`: an output directory and a
manifest value. -/
structure GenAndroidManifest where
  out_dir : Path
  manifest : AndroidManifest

/-- `GenAndroidManifest::run`: `File::create(out_dir/AndroidManifest.xml)`
creates or truncates the file, then `writeln!` stores the rendered manifest
followed by a newline; either failure surfaces as the I/O error. -/
def GenAndroidManifest.run (g : GenAndroidManifest) (st : FSState) :
    Except Error FSState :=
  let p := g.out_dir.join "AndroidManifest.xml"
  if st.writable p then
    Except.ok
      { st with
        files := fun q => if q = p then some (g.manifest.rendered ++ "\n") else st.files q }
  else Except.error Error.Io

/-- Modelled from the spec: the semver `Version` type parsed by
`Version::from_semver` lives outside the analyzed sources; only its
`major`/`minor`/`patch` numeric fields are consumed by `check.rs`. -/
structure Version where
  major : Nat
  minor : Nat
  patch : Nat
deriving DecidableEq

/-- `is_same` of `update/check.rs`, parameterized by the (external)
`Version::from_semver` parser: field-wise equality of the two parsed
versions, falling back to `default_result` when either parse fails. -/
def is_same (parse : String → Option Version) (version1 version2 : String)
    (default_result : Bool) : Bool :=
  match parse version1 with
  | some values1 =>
    match parse version2 with
    | some values2 =>
      values1.major == values2.major && values1.minor == values2.minor &&
        values1.patch == values2.patch
    | none => default_result
  | none => default_result

/-- `is_newer` of `update/check.rs`, parameterized by the (external)
`Version::from_semver` parser: the nested major/minor/patch comparison,
falling back to `default_result` when either parse fails. -/
def is_newer (parse : String → Option Version) (old_string new_string : String)
    (default_result : Bool) : Bool :=
  match parse old_string with
  | some old_values =>
    match parse new_string with
    | some new_values =>
      if new_values.major > old_values.major then true
      else if new_values.major = old_values.major then
        if new_values.minor > old_values.minor then true
        else
          new_values.minor == old_values.minor &&
            decide (new_values.patch > old_values.patch)
      else false
    | none => default_result
  | none => default_result

/-- `IntentFilterData` of the manifest model (field `prefix` renamed `pfx`,
since Lean reserves the word). -/
structure IntentFilterData where
  scheme : Option String
  host : Option String
  pfx : Option String
deriving DecidableEq

/-- `IntentFilterConfigData` of `cargo-creator` metadata (field `prefix`
renamed `pfx`). -/
structure IntentFilterConfigData where
  scheme : Option String
  host : Option String
  pfx : Option String
deriving DecidableEq

/-- `From<IntentFilterConfigData> for IntentFilterData`: field-wise copy. -/
def IntentFilterData.fromConfig (config : IntentFilterConfigData) : IntentFilterData :=
  { scheme := config.scheme
    host := config.host
    pfx := config.pfx }

/-- `IntentFilterConfig` of `cargo-creator` metadata. -/
structure IntentFilterConfig where
  name : String
  data : List IntentFilterConfigData
  categories : List String
deriving DecidableEq

/-- `IntentFilter` of the manifest model. -/
structure IntentFilter where
  name : String
  data : List IntentFilterData
  categories : List String
deriving DecidableEq

/-- `From<IntentFilterConfig> for IntentFilter`: name and categories are
moved across; `data` is mapped through `IntentFilterData::from` and run
through `.rev()` before collection. -/
def IntentFilter.fromConfig (config : IntentFilterConfig) : IntentFilter :=
  { name := config.name
    data := (config.data.map IntentFilterData.fromConfig).reverse
    categories := config.categories }

/-- A concrete filesystem for witnesses: only the fixed toolchain and sysroot
library directories exist, in particular no API-level subdirectory. -/
def sysrootOnlyDirs : List Path :=
  [["ndk", "toolchains", "llvm", "prebuilt", "linux-x86_64"],
   ["ndk", "toolchains", "llvm", "prebuilt", "linux-x86_64", "sysroot", "usr", "lib",
     "aarch64-linux-android"]]

theorem firstScanAux_some {ex : Nat → Bool} :
    ∀ {tmp fuel n : Nat}, firstScanAux ex tmp fuel = some n → ex n = true ∧ tmp ≤ n := by
  intro tmp fuel
  induction fuel generalizing tmp with
  | zero => intro n h; simp [firstScanAux] at h
  | succ fuel ih =>
    intro n h
    rw [firstScanAux] at h
    by_cases h1 : 1 < tmp
    · simp only [if_pos h1] at h
      by_cases h2 : ex tmp = true
      · simp only [if_pos h2] at h
        cases h
        exact ⟨h2, Nat.le_refl _⟩
      · simp only [if_neg h2] at h
        obtain ⟨hex, hle⟩ := ih h
        exact ⟨hex, by omega⟩
    · simp [if_neg h1] at h

theorem firstScanAux_none {ex : Nat → Bool} :
    ∀ {tmp fuel : Nat}, (∀ n, tmp ≤ n → n < tmp + fuel → ex n = false) →
      firstScanAux ex tmp fuel = none := by
  intro tmp fuel
  induction fuel generalizing tmp with
  | zero => intro _; rfl
  | succ fuel ih =>
    intro h
    rw [firstScanAux]
    by_cases h1 : 1 < tmp
    · rw [if_pos h1, h tmp (Nat.le_refl _) (by omega)]
      simp only [Bool.false_eq_true, if_false]
      exact ih fun n hn hn' => h n (by omega) (by omega)
    · rw [if_neg h1]

theorem secondScanAux_some {ex : Nat → Bool} :
    ∀ {tmp fuel n : Nat}, secondScanAux ex tmp fuel = some n → ex n = true ∧ tmp ≤ n := by
  intro tmp fuel
  induction fuel generalizing tmp with
  | zero => intro n h; simp [secondScanAux] at h
  | succ fuel ih =>
    intro n h
    rw [secondScanAux] at h
    by_cases h1 : tmp < 100
    · simp only [if_pos h1] at h
      by_cases h2 : ex tmp = true
      · simp only [if_pos h2] at h
        cases h
        exact ⟨h2, Nat.le_refl _⟩
      · simp only [if_neg h2] at h
        obtain ⟨hex, hle⟩ := ih h
        exact ⟨hex, by omega⟩
    · simp [if_neg h1] at h

theorem secondScanAux_none {ex : Nat → Bool} :
    ∀ {tmp fuel : Nat}, (∀ n, tmp ≤ n → n < tmp + fuel → ex n = false) →
      secondScanAux ex tmp fuel = none := by
  intro tmp fuel
  induction fuel generalizing tmp with
  | zero => intro _; rfl
  | succ fuel ih =>
    intro h
    rw [secondScanAux]
    by_cases h1 : tmp < 100
    · rw [if_pos h1, h tmp (Nat.le_refl _) (by omega)]
      simp only [Bool.false_eq_true, if_false]
      exact ih fun n hn hn' => h n (by omega) (by omega)
    · rw [if_neg h1]

theorem firstScan_some {ex : Nat → Bool} {tmp n : Nat} (h : firstScan ex tmp = some n) :
    ex n = true ∧ tmp ≤ n :=
  firstScanAux_some h

theorem firstScan_none {ex : Nat → Bool} {tmp : Nat}
    (h : ∀ n, tmp ≤ n → n < 2 ^ 32 → ex n = false) : firstScan ex tmp = none :=
  firstScanAux_none fun n hn hn' => h n hn (by omega)

theorem secondScan_some {ex : Nat → Bool} {tmp n : Nat} (h : secondScan ex tmp = some n) :
    ex n = true ∧ tmp ≤ n :=
  secondScanAux_some h

theorem secondScan_none {ex : Nat → Bool} {tmp : Nat}
    (h : ∀ n, tmp ≤ n → n < 100 → ex n = false) : secondScan ex tmp = none :=
  secondScanAux_none fun n hn hn' => h n hn (by omega)

theorem Path.set_file_name_join (p : Path) (s t : String) :
    (p.join s).set_file_name t = p.join t := by
  simp [Path.join, Path.set_file_name]

/-- Claim C1: `sysroot_platform_lib_dir` returns a path only when it is a
numeric-API-level subdirectory of the sysroot library directory that exists;
when no candidate level within the scanned bound (all levels from `min_api` up
to the `u32` wrap) exists, it fails with `PlatformNotFound(min_api)`. -/
theorem C1_sysroot_platform_lib_dir (env : String → Option String) (fsx : Path → Bool)
    (cfgOs : OsType) (ndk : AndroidNdk) (build_target : AndroidTarget)
    (min_sdk_version : Nat) (d : Path)
    (hd : ndk.sysroot_lib_dir env fsx cfgOs build_target = Except.ok d) :
    (∀ p, ndk.sysroot_platform_lib_dir env fsx cfgOs build_target min_sdk_version =
        Except.ok p →
      ∃ lvl : Nat, p = d.join (toString lvl) ∧ fsx p = true) ∧
    ((∀ lvl : Nat, min_sdk_version ≤ lvl → lvl < 2 ^ 32 →
        fsx (d.join (toString lvl)) = false) →
      ndk.sysroot_platform_lib_dir env fsx cfgOs build_target min_sdk_version =
        Except.error (Error.android (AndroidError.PlatformNotFound min_sdk_version))) := by
  have key : ndk.sysroot_platform_lib_dir env fsx cfgOs build_target min_sdk_version =
      (match firstScan (fun n => fsx (d.join (toString n))) min_sdk_version with
      | some n => Except.ok (d.join (toString n))
      | none =>
        match secondScan (fun n => fsx (d.join (toString n))) min_sdk_version with
        | some n => Except.ok (d.join (toString n))
        | none =>
          Except.error (Error.android (AndroidError.PlatformNotFound min_sdk_version))) := by
    simp only [AndroidNdk.sysroot_platform_lib_dir, hd]
  constructor
  · intro p hp
    rw [key] at hp
    cases h1 : firstScan (fun n => fsx (d.join (toString n))) min_sdk_version with
    | some n =>
      rw [h1] at hp
      injection hp with hp
      exact ⟨n, hp.symm, hp ▸ (firstScan_some h1).1⟩
    | none =>
      rw [h1] at hp
      cases h2 : secondScan (fun n => fsx (d.join (toString n))) min_sdk_version with
      | some n =>
        rw [h2] at hp
        injection hp with hp
        exact ⟨n, hp.symm, hp ▸ (secondScan_some h2).1⟩
      | none => rw [h2] at hp; exact absurd hp (by simp)
  · intro hnone
    rw [key, firstScan_none fun n hn hb => hnone n hn hb,
      secondScan_none fun n hn hb => hnone n hn (by omega)]

/-- Witness for C1 at a concrete environment and an everything-exists
filesystem. -/
theorem C1_sysroot_platform_lib_dir_witness :
    (∀ p, AndroidNdk.sysroot_platform_lib_dir (fun _ => none) (fun _ => true)
        OsType.linux ⟨["ndk"]⟩ ⟨"aarch64-linux-android", "aarch64-linux-android"⟩ 30 =
        Except.ok p →
      ∃ lvl : Nat, p = Path.join ["ndk", "toolchains", "llvm", "prebuilt",
          "linux-x86_64", "sysroot", "usr", "lib", "aarch64-linux-android"]
          (toString lvl) ∧
        (fun _ : Path => true) p = true) ∧
    ((∀ lvl : Nat, 30 ≤ lvl → lvl < 2 ^ 32 →
        (fun _ : Path => true) (Path.join ["ndk", "toolchains", "llvm", "prebuilt",
          "linux-x86_64", "sysroot", "usr", "lib", "aarch64-linux-android"]
          (toString lvl)) = false) →
      AndroidNdk.sysroot_platform_lib_dir (fun _ => none) (fun _ => true)
        OsType.linux ⟨["ndk"]⟩ ⟨"aarch64-linux-android", "aarch64-linux-android"⟩ 30 =
        Except.error (Error.android (AndroidError.PlatformNotFound 30))) :=
  C1_sysroot_platform_lib_dir (fun _ => none) (fun _ => true) OsType.linux ⟨["ndk"]⟩
    ⟨"aarch64-linux-android", "aarch64-linux-android"⟩ 30
    ["ndk", "toolchains", "llvm", "prebuilt", "linux-x86_64", "sysroot", "usr", "lib",
      "aarch64-linux-android"] (by decide)

/-- Claim C2: once the sysroot library directory resolves, the two-phase scan
is total — it yields an existing found directory or the `PlatformNotFound`
failure, for every filesystem (the embedding's structural recursion on the
remaining `u32` range is the termination argument for the wrapped loop). -/
theorem C2_scan_terminates (env : String → Option String) (fsx : Path → Bool)
    (cfgOs : OsType) (ndk : AndroidNdk) (build_target : AndroidTarget)
    (min_sdk_version : Nat) (d : Path)
    (hd : ndk.sysroot_lib_dir env fsx cfgOs build_target = Except.ok d) :
    (∃ lvl : Nat,
      ndk.sysroot_platform_lib_dir env fsx cfgOs build_target min_sdk_version =
        Except.ok (d.join (toString lvl)) ∧ fsx (d.join (toString lvl)) = true) ∨
    ndk.sysroot_platform_lib_dir env fsx cfgOs build_target min_sdk_version =
      Except.error (Error.android (AndroidError.PlatformNotFound min_sdk_version)) := by
  have key : ndk.sysroot_platform_lib_dir env fsx cfgOs build_target min_sdk_version =
      (match firstScan (fun n => fsx (d.join (toString n))) min_sdk_version with
      | some n => Except.ok (d.join (toString n))
      | none =>
        match secondScan (fun n => fsx (d.join (toString n))) min_sdk_version with
        | some n => Except.ok (d.join (toString n))
        | none =>
          Except.error (Error.android (AndroidError.PlatformNotFound min_sdk_version))) := by
    simp only [AndroidNdk.sysroot_platform_lib_dir, hd]
  cases h1 : firstScan (fun n => fsx (d.join (toString n))) min_sdk_version with
  | some n => exact Or.inl ⟨n, by rw [key, h1], (firstScan_some h1).1⟩
  | none =>
    cases h2 : secondScan (fun n => fsx (d.join (toString n))) min_sdk_version with
    | some n => exact Or.inl ⟨n, by rw [key, h1, h2], (secondScan_some h2).1⟩
    | none => exact Or.inr (by rw [key, h1, h2])

/-- Witness for C2 at a concrete environment where no API-level directory
exists at all (only the fixed directories are present). -/
theorem C2_scan_terminates_witness :
    (∃ lvl : Nat,
      AndroidNdk.sysroot_platform_lib_dir
          (fun _ => none)
          (fun p => decide (p ∈ sysrootOnlyDirs))
          OsType.linux ⟨["ndk"]⟩ ⟨"aarch64-linux-android", "aarch64-linux-android"⟩ 30 =
        Except.ok (Path.join ["ndk", "toolchains", "llvm", "prebuilt", "linux-x86_64",
          "sysroot", "usr", "lib", "aarch64-linux-android"] (toString lvl)) ∧
      (fun p => decide (p ∈ sysrootOnlyDirs))
        (Path.join ["ndk", "toolchains", "llvm", "prebuilt", "linux-x86_64",
          "sysroot", "usr", "lib", "aarch64-linux-android"] (toString lvl)) = true) ∨
    AndroidNdk.sysroot_platform_lib_dir
        (fun _ => none)
        (fun p => decide (p ∈ sysrootOnlyDirs))
        OsType.linux ⟨["ndk"]⟩ ⟨"aarch64-linux-android", "aarch64-linux-android"⟩ 30 =
      Except.error (Error.android (AndroidError.PlatformNotFound 30)) :=
  C2_scan_terminates (fun _ => none) (fun p => decide (p ∈ sysrootOnlyDirs))
    OsType.linux ⟨["ndk"]⟩ ⟨"aarch64-linux-android", "aarch64-linux-android"⟩ 30
    ["ndk", "toolchains", "llvm", "prebuilt", "linux-x86_64", "sysroot", "usr", "lib",
      "aarch64-linux-android"] (by decide)

/-- Claim C3 (amended): an unrecognized `HOST` string yields
`UnsupportedHost` with exactly that string only when additionally no
compile-time platform matches; with no `HOST` string and no compile-time
match, the failure is `UnsupportedTarget`. -/
theorem C3_unsupported_host_amended (env : String → Option String) (fsx : Path → Bool)
    (ndk : AndroidNdk) (h : String) (hh : env "HOST" = some h)
    (hl : strContains h "linux" = false) (hm : strContains h "macos" = false)
    (hw : strContains h "windows" = false) :
    AndroidNdk.toolchain_dir env fsx OsType.other ndk =
      Except.error (Error.android (AndroidError.UnsupportedHost h)) ∧
    ∀ env' : String → Option String, ∀ fsx' : Path → Bool, ∀ ndk' : AndroidNdk,
      env' "HOST" = none →
      AndroidNdk.toolchain_dir env' fsx' OsType.other ndk' =
        Except.error (Error.android AndroidError.UnsupportedTarget) := by
  constructor
  · simp [AndroidNdk.toolchain_dir, resolve_arch, hh, hl, hm, hw]
  · intro env' fsx' ndk' hnone
    simp [AndroidNdk.toolchain_dir, resolve_arch, hnone]

/-- Witness for the amended C3 at `HOST=plan9` with no compile-time match. -/
theorem C3_unsupported_host_amended_witness :
    AndroidNdk.toolchain_dir (fun v => if v = "HOST" then some "plan9" else none)
        (fun _ => true) OsType.other ⟨["ndk"]⟩ =
      Except.error (Error.android (AndroidError.UnsupportedHost "plan9")) ∧
    ∀ env' : String → Option String, ∀ fsx' : Path → Bool, ∀ ndk' : AndroidNdk,
      env' "HOST" = none →
      AndroidNdk.toolchain_dir env' fsx' OsType.other ndk' =
        Except.error (Error.android AndroidError.UnsupportedTarget) :=
  C3_unsupported_host_amended (fun v => if v = "HOST" then some "plan9" else none)
    (fun _ => true) ⟨["ndk"]⟩ "plan9" rfl (by decide) (by decide) (by decide)

/-- Counterexample to C3 as stated: `HOST=plan9` contains none of the
recognized substrings, yet with a matching compile-time platform (linux) the
resolver succeeds instead of failing with `UnsupportedHost "plan9"`. -/
theorem C3_unsupported_host_counterexample :
    ((fun v => if v = "HOST" then some "plan9" else none) : String → Option String)
        "HOST" = some "plan9" ∧
    strContains "plan9" "linux" = false ∧
    strContains "plan9" "macos" = false ∧
    strContains "plan9" "windows" = false ∧
    AndroidNdk.toolchain_dir (fun v => if v = "HOST" then some "plan9" else none)
        (fun _ => true) OsType.linux ⟨["ndk"]⟩ =
      Except.ok (["ndk", "toolchains", "llvm", "prebuilt", "linux-x86_64"] : Path) ∧
    AndroidNdk.toolchain_dir (fun v => if v = "HOST" then some "plan9" else none)
        (fun _ => true) OsType.linux ⟨["ndk"]⟩ ≠
      Except.error (Error.android (AndroidError.UnsupportedHost "plan9")) := by
  decide

/-- Claim C4: with the architecture tag resolved, the `<tag>-x86_64` prebuilt
directory is preferred, the bare `<tag>` directory is the fallback, and with
neither present the failure is `PathNotFound`. -/
theorem C4_toolchain_dir_fallback (env : String → Option String) (fsx : Path → Bool)
    (cfgOs : OsType) (ndk : AndroidNdk) (arch : String)
    (ha : resolve_arch env cfgOs = Except.ok arch) :
    (fsx ((((ndk.ndk_path.join "toolchains").join "llvm").join "prebuilt").join
        (arch ++ "-x86_64")) = true →
      ndk.toolchain_dir env fsx cfgOs = Except.ok
        ((((ndk.ndk_path.join "toolchains").join "llvm").join "prebuilt").join
          (arch ++ "-x86_64"))) ∧
    (fsx ((((ndk.ndk_path.join "toolchains").join "llvm").join "prebuilt").join
        (arch ++ "-x86_64")) = false →
      fsx ((((ndk.ndk_path.join "toolchains").join "llvm").join "prebuilt").join arch) =
        true →
      ndk.toolchain_dir env fsx cfgOs = Except.ok
        ((((ndk.ndk_path.join "toolchains").join "llvm").join "prebuilt").join arch)) ∧
    (fsx ((((ndk.ndk_path.join "toolchains").join "llvm").join "prebuilt").join
        (arch ++ "-x86_64")) = false →
      fsx ((((ndk.ndk_path.join "toolchains").join "llvm").join "prebuilt").join arch) =
        false →
      ndk.toolchain_dir env fsx cfgOs = Except.error (Error.PathNotFound
        ((((ndk.ndk_path.join "toolchains").join "llvm").join "prebuilt").join arch))) := by
  refine ⟨?_, ?_, ?_⟩
  · intro h1
    simp [AndroidNdk.toolchain_dir, ha, h1]
  · intro h1 h2
    simp [AndroidNdk.toolchain_dir, ha, h1, h2, Path.set_file_name_join]
  · intro h1 h2
    simp [AndroidNdk.toolchain_dir, ha, h1, h2, Path.set_file_name_join]

/-- Witness for C4 at a concrete environment, suffixed directory present. -/
theorem C4_toolchain_dir_fallback_witness :
    AndroidNdk.toolchain_dir (fun _ => none) (fun _ => true) OsType.linux ⟨["ndk"]⟩ =
      Except.ok (Path.join (Path.join (Path.join (Path.join ["ndk"] "toolchains")
        "llvm") "prebuilt") ("linux" ++ "-x86_64")) :=
  (C4_toolchain_dir_fallback (fun _ => none) (fun _ => true) OsType.linux ⟨["ndk"]⟩
    "linux" (by decide)).1 rfl

/-- Claim C6: `clang` fails with `PathNotFound` carrying exactly the missing
compiler path (first the C, then the C++ front end) and on success returns the
pair of existing compiler paths. -/
theorem C6_clang_binaries (env : String → Option String) (fsx : Path → Bool)
    (cfgOs : OsType) (ndk : AndroidNdk) (target : AndroidTarget) (platform : Nat)
    (tdir : Path) (ht : ndk.toolchain_dir env fsx cfgOs = Except.ok tdir) :
    (fsx ((tdir.join "bin").join (target.ndk_llvm_triple ++ toString platform ++
        "-clang" ++ (if cfgOs = OsType.windows then ".cmd" else ""))) = false →
      ndk.clang env fsx cfgOs target platform = Except.error (Error.PathNotFound
        ((tdir.join "bin").join (target.ndk_llvm_triple ++ toString platform ++
          "-clang" ++ (if cfgOs = OsType.windows then ".cmd" else ""))))) ∧
    (fsx ((tdir.join "bin").join (target.ndk_llvm_triple ++ toString platform ++
        "-clang" ++ (if cfgOs = OsType.windows then ".cmd" else ""))) = true →
      fsx ((tdir.join "bin").join (target.ndk_llvm_triple ++ toString platform ++
        "-clang" ++ "++" ++ (if cfgOs = OsType.windows then ".cmd" else ""))) = false →
      ndk.clang env fsx cfgOs target platform = Except.error (Error.PathNotFound
        ((tdir.join "bin").join (target.ndk_llvm_triple ++ toString platform ++
          "-clang" ++ "++" ++ (if cfgOs = OsType.windows then ".cmd" else ""))))) ∧
    (fsx ((tdir.join "bin").join (target.ndk_llvm_triple ++ toString platform ++
        "-clang" ++ (if cfgOs = OsType.windows then ".cmd" else ""))) = true →
      fsx ((tdir.join "bin").join (target.ndk_llvm_triple ++ toString platform ++
        "-clang" ++ "++" ++ (if cfgOs = OsType.windows then ".cmd" else ""))) = true →
      ndk.clang env fsx cfgOs target platform = Except.ok
        ((tdir.join "bin").join (target.ndk_llvm_triple ++ toString platform ++
          "-clang" ++ (if cfgOs = OsType.windows then ".cmd" else "")),
          (tdir.join "bin").join (target.ndk_llvm_triple ++ toString platform ++
            "-clang" ++ "++" ++ (if cfgOs = OsType.windows then ".cmd" else "")))) := by
  refine ⟨?_, ?_, ?_⟩
  · intro h1
    simp [AndroidNdk.clang, ht, h1]
  · intro h1 h2
    simp [AndroidNdk.clang, ht, h1, h2]
  · intro h1 h2
    simp [AndroidNdk.clang, ht, h1, h2]

/-- Witness for C6: both compiler files exist, the pair is returned. -/
theorem C6_clang_binaries_witness :
    AndroidNdk.clang (fun _ => none) (fun _ => true) OsType.linux ⟨["ndk"]⟩
        ⟨"aarch64-linux-android", "aarch64-linux-android"⟩ 30 =
      Except.ok
        ((["ndk", "toolchains", "llvm", "prebuilt", "linux-x86_64", "bin",
            "aarch64-linux-android30-clang"] : Path),
          (["ndk", "toolchains", "llvm", "prebuilt", "linux-x86_64", "bin",
            "aarch64-linux-android30-clang++"] : Path)) := by
  have h := (C6_clang_binaries (fun _ => none) (fun _ => true) OsType.linux ⟨["ndk"]⟩
    ⟨"aarch64-linux-android", "aarch64-linux-android"⟩ 30
    ["ndk", "toolchains", "llvm", "prebuilt", "linux-x86_64"] (by decide)).2.2 rfl rfl
  rw [h]
  rfl

/-- Claim C5: `from_env` resolves the installation root by consulting
`ANDROID_NDK_ROOT`, `ANDROID_NDK_PATH`, `ANDROID_NDK_HOME`, `NDK_HOME` in
order, first set wins; when none is set, an SDK root was supplied and its
`ndk-bundle` subdirectory exists, that subdirectory is returned; otherwise it
fails with `AndroidNdkNotFound`. -/
theorem C5_from_env_resolution (env : String → Option String) (fsx : Path → Bool)
    (sdk_path : Option Path) :
    (∀ p, env "ANDROID_NDK_ROOT" = some p →
      AndroidNdk.from_env env fsx sdk_path = Except.ok ⟨[p]⟩) ∧
    (∀ p, env "ANDROID_NDK_ROOT" = none → env "ANDROID_NDK_PATH" = some p →
      AndroidNdk.from_env env fsx sdk_path = Except.ok ⟨[p]⟩) ∧
    (∀ p, env "ANDROID_NDK_ROOT" = none → env "ANDROID_NDK_PATH" = none →
      env "ANDROID_NDK_HOME" = some p →
      AndroidNdk.from_env env fsx sdk_path = Except.ok ⟨[p]⟩) ∧
    (∀ p, env "ANDROID_NDK_ROOT" = none → env "ANDROID_NDK_PATH" = none →
      env "ANDROID_NDK_HOME" = none → env "NDK_HOME" = some p →
      AndroidNdk.from_env env fsx sdk_path = Except.ok ⟨[p]⟩) ∧
    (∀ sdk, env "ANDROID_NDK_ROOT" = none → env "ANDROID_NDK_PATH" = none →
      env "ANDROID_NDK_HOME" = none → env "NDK_HOME" = none →
      sdk_path = some sdk → fsx (sdk.join "ndk-bundle") = true →
      AndroidNdk.from_env env fsx sdk_path = Except.ok ⟨sdk.join "ndk-bundle"⟩) ∧
    (env "ANDROID_NDK_ROOT" = none → env "ANDROID_NDK_PATH" = none →
      env "ANDROID_NDK_HOME" = none → env "NDK_HOME" = none → sdk_path = none →
      AndroidNdk.from_env env fsx sdk_path =
        Except.error (Error.android AndroidError.AndroidNdkNotFound)) ∧
    (∀ sdk, env "ANDROID_NDK_ROOT" = none → env "ANDROID_NDK_PATH" = none →
      env "ANDROID_NDK_HOME" = none → env "NDK_HOME" = none →
      sdk_path = some sdk → fsx (sdk.join "ndk-bundle") = false →
      AndroidNdk.from_env env fsx sdk_path =
        Except.error (Error.android AndroidError.AndroidNdkNotFound)) := by
  refine ⟨?_, ?_, ?_, ?_, ?_, ?_, ?_⟩
  · intro p h1
    simp [AndroidNdk.from_env, Option.orElse, Path.fromString, h1]
  · intro p h1 h2
    simp [AndroidNdk.from_env, Option.orElse, Path.fromString, h1, h2]
  · intro p h1 h2 h3
    simp [AndroidNdk.from_env, Option.orElse, Path.fromString, h1, h2, h3]
  · intro p h1 h2 h3 h4
    simp [AndroidNdk.from_env, Option.orElse, Path.fromString, h1, h2, h3, h4]
  · intro sdk h1 h2 h3 h4 h5 h6
    simp [AndroidNdk.from_env, Option.orElse, h1, h2, h3, h4, h5, h6]
  · intro h1 h2 h3 h4 h5
    simp [AndroidNdk.from_env, Option.orElse, h1, h2, h3, h4, h5]
  · intro sdk h1 h2 h3 h4 h5 h6
    simp [AndroidNdk.from_env, Option.orElse, h1, h2, h3, h4, h5, h6]

/-- Witness for C5 at a concrete environment with `ANDROID_NDK_ROOT` set. -/
theorem C5_from_env_resolution_witness :
    AndroidNdk.from_env (fun v => if v = "ANDROID_NDK_ROOT" then some "/opt/ndk" else none)
      (fun _ => false) none = Except.ok ⟨["/opt/ndk"]⟩ :=
  (C5_from_env_resolution (fun v => if v = "ANDROID_NDK_ROOT" then some "/opt/ndk" else none)
    (fun _ => false) none).1 "/opt/ndk" rfl

/-- Claim C7: running the manifest-generation unit creates or truncates
`D/AndroidManifest.xml` so that afterwards it holds the rendered text followed
by a newline; re-running with a different rendering overwrites rather than
appends; a write failure surfaces as the I/O error. -/
theorem C7_manifest_write (out_dir : Path) (m m' : AndroidManifest) (st : FSState)
    (hw : st.writable (out_dir.join "AndroidManifest.xml") = true) :
    (∃ st1 st2,
      GenAndroidManifest.run ⟨out_dir, m⟩ st = Except.ok st1 ∧
      st1.files (out_dir.join "AndroidManifest.xml") = some (m.rendered ++ "\n") ∧
      GenAndroidManifest.run ⟨out_dir, m'⟩ st1 = Except.ok st2 ∧
      st2.files (out_dir.join "AndroidManifest.xml") = some (m'.rendered ++ "\n")) ∧
    (∀ st' : FSState, st'.writable (out_dir.join "AndroidManifest.xml") = false →
      GenAndroidManifest.run ⟨out_dir, m⟩ st' = Except.error Error.Io) := by
  constructor
  · refine
      ⟨{ st with
          files := fun q =>
            if q = out_dir.join "AndroidManifest.xml" then some (m.rendered ++ "\n")
            else st.files q },
        { st with
          files := fun q =>
            if q = out_dir.join "AndroidManifest.xml" then some (m'.rendered ++ "\n")
            else
              if q = out_dir.join "AndroidManifest.xml" then some (m.rendered ++ "\n")
              else st.files q },
        ?_, ?_, ?_, ?_⟩
    · simp [GenAndroidManifest.run, hw]
    · simp
    · simp [GenAndroidManifest.run, hw]
    · simp
  · intro st' h
    simp [GenAndroidManifest.run, h]

/-- Witness for C7 at a concrete directory, manifests and filesystem. -/
theorem C7_manifest_write_witness :
    (∃ st1 st2,
      GenAndroidManifest.run ⟨["D"], ⟨"S"⟩⟩ ⟨fun _ => none, fun _ => true⟩ = Except.ok st1 ∧
      st1.files (Path.join ["D"] "AndroidManifest.xml") = some ("S" ++ "\n") ∧
      GenAndroidManifest.run ⟨["D"], ⟨"T"⟩⟩ st1 = Except.ok st2 ∧
      st2.files (Path.join ["D"] "AndroidManifest.xml") = some ("T" ++ "\n")) ∧
    (∀ st' : FSState, st'.writable (Path.join ["D"] "AndroidManifest.xml") = false →
      GenAndroidManifest.run ⟨["D"], ⟨"S"⟩⟩ st' = Except.error Error.Io) :=
  C7_manifest_write ["D"] ⟨"S"⟩ ⟨"T"⟩ ⟨fun _ => none, fun _ => true⟩ rfl

/-- Claim C8: if either version string fails to parse, `is_newer` and
`is_same` return the caller-supplied default rather than failing. -/
theorem C8_default_on_unparseable (parse : String → Option Version) (v1 v2 : String)
    (d : Bool) (h : parse v1 = none ∨ parse v2 = none) :
    is_newer parse v1 v2 d = d ∧ is_same parse v1 v2 d = d := by
  cases h with
  | inl h => simp [is_newer, is_same, h]
  | inr h => cases hv : parse v1 <;> simp [is_newer, is_same, h, hv]

/-- Witness for C8 with a parser rejecting every string. -/
theorem C8_default_on_unparseable_witness :
    is_newer (fun _ => none) "0.1.0" "junk" true = true ∧
      is_same (fun _ => none) "0.1.0" "junk" true = true :=
  C8_default_on_unparseable (fun _ => none) "0.1.0" "junk" true (Or.inl rfl)

/-- Claim C9: on two parseable versions, `is_newer` decides strict
lexicographic `(major, minor, patch)` ascent, independently of the default
flag, and is false on equal version strings. -/
theorem C9_is_newer_lexicographic (parse : String → Option Version)
    (old_string new_string v : String) (o n u : Version) (d d' : Bool)
    (ho : parse old_string = some o) (hn : parse new_string = some n)
    (hu : parse v = some u) :
    (is_newer parse old_string new_string d = true ↔
      (o.major < n.major ∨ (o.major = n.major ∧
        (o.minor < n.minor ∨ (o.minor = n.minor ∧ o.patch < n.patch))))) ∧
    is_newer parse old_string new_string d = is_newer parse old_string new_string d' ∧
    is_newer parse v v d = false := by
  refine ⟨?_, ?_, ?_⟩
  · simp only [is_newer, ho, hn]
    split_ifs <;> simp_all <;> omega
  · simp [is_newer, ho, hn]
  · simp [is_newer, hu]

/-- Witness for C9 at concrete versions `1.2.3` against `1.3.0`. -/
theorem C9_is_newer_lexicographic_witness :
    (is_newer (fun s => if s = "1.2.3" then some ⟨1, 2, 3⟩ else
        if s = "1.3.0" then some ⟨1, 3, 0⟩ else none) "1.2.3" "1.3.0" false = true ↔
      (1 < 1 ∨ (1 = 1 ∧ (2 < 3 ∨ (2 = 3 ∧ 3 < 0))))) ∧
    is_newer (fun s => if s = "1.2.3" then some ⟨1, 2, 3⟩ else
        if s = "1.3.0" then some ⟨1, 3, 0⟩ else none) "1.2.3" "1.3.0" false =
      is_newer (fun s => if s = "1.2.3" then some ⟨1, 2, 3⟩ else
        if s = "1.3.0" then some ⟨1, 3, 0⟩ else none) "1.2.3" "1.3.0" true ∧
    is_newer (fun s => if s = "1.2.3" then some ⟨1, 2, 3⟩ else
        if s = "1.3.0" then some ⟨1, 3, 0⟩ else none) "1.2.3" "1.2.3" false = false :=
  C9_is_newer_lexicographic
    (fun s => if s = "1.2.3" then some ⟨1, 2, 3⟩ else
      if s = "1.3.0" then some ⟨1, 3, 0⟩ else none)
    "1.2.3" "1.3.0" "1.2.3" ⟨1, 2, 3⟩ ⟨1, 3, 0⟩ ⟨1, 2, 3⟩ false true rfl rfl rfl

/-- Claim C10: converting an `IntentFilterConfig` preserves the name and the
categories list and produces the data list in reversed order (elements
converted field-wise) relative to the configuration's data list. -/
theorem C10_intent_filter_from_config (config : IntentFilterConfig) (i : Nat)
    (h : i < config.data.length) :
    (IntentFilter.fromConfig config).name = config.name ∧
    (IntentFilter.fromConfig config).categories = config.categories ∧
    (IntentFilter.fromConfig config).data.length = config.data.length ∧
    (IntentFilter.fromConfig config).data[i]? =
      (config.data[config.data.length - 1 - i]?).map IntentFilterData.fromConfig := by
  refine ⟨rfl, rfl, by simp [IntentFilter.fromConfig], ?_⟩
  show ((config.data.map IntentFilterData.fromConfig).reverse)[i]? = _
  rw [List.getElem?_reverse (by simpa using h)]
  simp [List.getElem?_map]

/-- Witness for C10 at a two-element data list, index 0. -/
theorem C10_intent_filter_from_config_witness :
    (IntentFilter.fromConfig
        ⟨"flt", [⟨some "https", none, none⟩, ⟨none, some "example.org", none⟩],
          ["browsable"]⟩).name = "flt" ∧
    (IntentFilter.fromConfig
        ⟨"flt", [⟨some "https", none, none⟩, ⟨none, some "example.org", none⟩],
          ["browsable"]⟩).categories = ["browsable"] ∧
    (IntentFilter.fromConfig
        ⟨"flt", [⟨some "https", none, none⟩, ⟨none, some "example.org", none⟩],
          ["browsable"]⟩).data.length =
      ([⟨some "https", none, none⟩,
        ⟨none, some "example.org", none⟩] : List IntentFilterConfigData).length ∧
    (IntentFilter.fromConfig
        ⟨"flt", [⟨some "https", none, none⟩, ⟨none, some "example.org", none⟩],
          ["browsable"]⟩).data[0]? =
      (([⟨some "https", none, none⟩,
          ⟨none, some "example.org", none⟩] : List IntentFilterConfigData)[2 - 1 - 0]?).map
        IntentFilterData.fromConfig :=
  C10_intent_filter_from_config
    ⟨"flt", [⟨some "https", none, none⟩, ⟨none, some "example.org", none⟩], ["browsable"]⟩
    0 (by decide)

end Crossbow
